import Mathlib

/-!
Formal model of the `harvestor` validation core
(`src/harvestor/validators`: `base.py`, `engine.py`, `rules/*.py`).

Modelling conventions (shallow embedding of the Python source):
* Python floats and ints are both modelled as exact rationals (`ℚ`).  The
  decimal literals of the source (`0.15`, `0.02`, ...) stand for the exact
  decimal values.  Binary floating-point rounding is abstracted away.
* A Python dict is an association list with unique keys; lookup takes the
  first matching key.  `data.get(k)` returns `None` (here `PyValue.null`)
  when the key is absent.
* A Python exception escaping a rule is modelled by the rule's evaluation
  returning `none`; `some findings` models a normal return.  The engine is
  the only caller that distinguishes the two (engine.py lines 63-73).
* `InvoiceData` / `ReceiptData` (from `schemas/defaults.py`, which only the
  rule modules reference) are opaque pydantic models used purely as schema
  identity tags for `issubclass` tests; they are modelled by a two-element
  inductive type.  Subclassing of these models is not exercised anywhere.
* Message strings are built exactly as in the source except that numeric
  formatting (`:.2f`, `str(float)`) is abstracted by explicit helper
  functions; no property below depends on the digits inside a message.
-/

/-- A Python value as it appears in the extracted-data mapping (spec §6):
null, string, number (int and float unified as `ℚ`), bool, list, or a
nested mapping. -/
inductive PyValue where
  | null : PyValue
  | str (s : String) : PyValue
  | num (q : ℚ) : PyValue
  | bool (b : Bool) : PyValue
  | list (xs : List PyValue) : PyValue
  | dict (fields : List (String × PyValue)) : PyValue

/-- A Python dict with string keys: association list, first key wins. -/
def PyDict := List (String × PyValue)

/-- Raw dict lookup: `k in d` / `d[k]` (first matching key). -/
def PyDict.find? : PyDict → String → Option PyValue
  | [], _ => none
  | (k', v) :: rest, k => if k' == k then some v else PyDict.find? rest k

/-- Python `k in data`. -/
def PyDict.containsKey (d : PyDict) (k : String) : Bool :=
  (d.find? k).isSome

/-- Python `data.get(k)`: the value, or `None` when the key is absent. -/
def PyDict.get (d : PyDict) (k : String) : PyValue :=
  (d.find? k).getD PyValue.null

/-- Python `data.get(k, default)`. -/
def PyDict.getD (d : PyDict) (k : String) (default : PyValue) : PyValue :=
  (d.find? k).getD default

/-- Python `value is None`. -/
def PyValue.isNull : PyValue → Bool
  | .null => true
  | _ => false

/-- Python truthiness (`bool(value)`): None/False/0/""/[]/{} are falsy. -/
def PyValue.truthy : PyValue → Bool
  | .null => false
  | .str s => !s.isEmpty
  | .num q => decide (q ≠ 0)
  | .bool b => b
  | .list xs => !xs.isEmpty
  | .dict fs => !fs.isEmpty

/-- Python `a or b`. -/
def pyOr (a b : PyValue) : PyValue :=
  if a.truthy then a else b

/-- The numeric value of a Python number, if the value is one.  Python's
`bool` is a subtype of `int` (`True == 1`), so booleans are numeric. -/
def PyValue.toNum? : PyValue → Option ℚ
  | .num q => some q
  | .bool b => some (if b then 1 else 0)
  | _ => none

/-- Python `isinstance(value, (int, float))` (true for bools as well). -/
def PyValue.isNumeric : PyValue → Bool
  | .num _ => true
  | .bool _ => true
  | _ => false

/-- Python `isinstance(value, (int, float)) and value < 0` (booleans are
non-negative). -/
def PyValue.isNegNum : PyValue → Bool
  | .num q => decide (q < 0)
  | _ => false

/-- Iterating a Python value with `for x in v`.  Lists yield elements,
strings yield one-character strings, dicts yield their keys; numbers,
booleans and `None` raise `TypeError` (modelled as `none`). -/
def PyValue.iterElems? : PyValue → Option (List PyValue)
  | .list xs => some xs
  | .str s => some (s.data.map (fun c => PyValue.str (String.mk [c])))
  | .dict fs => some (fs.map (fun p => PyValue.str p.1))
  | _ => none

/-- Python `str(value)` as used inside f-string messages.  Exact for strings,
`None` and booleans; numeric and container representations are abstracted
(no property depends on them). -/
def pyStr : PyValue → String
  | .null => "None"
  | .str s => s
  | .num q => if q.den == 1 then toString q.num else toString q.num ++ "/" ++ toString q.den
  | .bool b => if b then "True" else "False"
  | .list _ => "[...]"
  | .dict _ => "\x7b...\x7d"

/-- Python `f"{q:.2f}"`, with the rational value rounded half-up to two
decimals (binary-float round-half-even is abstracted; no property depends
on the digits). -/
def formatFixed2 (q : ℚ) : String :=
  let n : Int := ⌊q * 100 + 1 / 2⌋
  let sign := if n < 0 then "-" else ""
  let m := n.natAbs
  sign ++ toString (m / 100) ++ "." ++ (if m % 100 < 10 then "0" else "") ++ toString (m % 100)

/-- Computable `min` on ℚ (Python `min(a, b)`); kernel-reducible, unlike
the lattice `min`. -/
def ratMin (a b : ℚ) : ℚ :=
  if a ≤ b then a else b

/-- Computable `max` on ℚ (Python `max(a, b)`). -/
def ratMax (a b : ℚ) : ℚ :=
  if a ≤ b then b else a

/-- Computable absolute value on ℚ (Python `abs`). -/
def ratAbs (q : ℚ) : ℚ :=
  if q < 0 then -q else q

/-- Model of `RuleSeverity` (validators/base.py lines 11-16). -/
inductive RuleSeverity where
  | error : RuleSeverity
  | warning : RuleSeverity
  | info : RuleSeverity
deriving DecidableEq, Repr

/-- Model of `RuleFinding` (validators/base.py lines 19-29): one observation from
one rule, with the source's defaults. -/
structure RuleFinding where
  rule_name : String
  severity : RuleSeverity
  message : String
  field_name : Option String := none
  confidence_impact : ℚ := 0
  is_fraud_signal : Bool := false
  fraud_weight : ℚ := 0
deriving DecidableEq, Repr

/-- Schema identity tag: `InvoiceData` vs `ReceiptData` from
`schemas/defaults.py` (opaque pydantic models, used by the rules only for
`issubclass` tests; spec §6 calls them invoice-like vs receipt-like). -/
inductive Schema where
  | invoice : Schema
  | receipt : Schema
deriving DecidableEq, Repr

/-- Model of `ValidationResult` (`schemas/base.py`), with exactly the fields the
engine fills in (engine.py lines 95-106).  The impure `timestamp` field is
omitted. -/
structure ValidationResult where
  is_valid : Bool
  confidence : ℚ
  errors : List String
  warnings : List String
  fraud_checked : Bool
  fraud_risk : String
  fraud_reasons : List String
  cost : ℚ
  rules_checked : List String
deriving DecidableEq, Repr

namespace ValidationEngine

/-- Model of `ValidationEngine._calculate_fraud_risk` (engine.py lines 108-124). -/
def calculateFraudRisk (fraudFindings : List RuleFinding) : String :=
  if fraudFindings.isEmpty then "clean"
  else
    let total_weight : ℚ := ratMin 1 ((fraudFindings.map (fun f => f.fraud_weight)).sum)
    if total_weight < 0.01 then "clean"
    else if total_weight < 0.2 then "low"
    else if total_weight < 0.5 then "medium"
    else if total_weight < 0.8 then "high"
    else "critical"

/-- Model of `ValidationEngine._build_result` (engine.py lines 77-106). -/
def buildResult (findings : List RuleFinding) (rules_checked : List String) : ValidationResult :=
  let errors := (findings.filter (fun f => f.severity == RuleSeverity.error)).map (fun f => f.message)
  let warnings := (findings.filter (fun f => f.severity == RuleSeverity.warning)).map (fun f => f.message)
  let confidence := findings.foldl (fun c f => c - f.confidence_impact) (1 : ℚ)
  let confidence := ratMax 0 (ratMin 1 confidence)
  let fraudFindings := findings.filter (fun f => f.is_fraud_signal)
  { is_valid := errors.length == 0
    confidence := confidence
    errors := errors
    warnings := warnings
    fraud_checked := rules_checked.length > 0
    fraud_risk := calculateFraudRisk fraudFindings
    fraud_reasons := fraudFindings.map (fun f => f.message)
    cost := 0
    rules_checked := rules_checked }

end ValidationEngine

/-- A registered rule as the engine sees it (`BaseValidationRule`,
validators/base.py): identity, applicability, and evaluation.  `none`
from `evaluate` models an escaping exception. -/
structure Rule where
  name : String
  appliesTo : Schema → Bool := fun _ => true
  evaluate : PyDict → Schema → Option (List RuleFinding)

namespace ValidationEngine

/-- The synthetic finding the engine substitutes for a rule that raised
(engine.py lines 67-73). -/
def syntheticFinding (name : String) : RuleFinding :=
  { rule_name := name
    severity := RuleSeverity.warning
    message := "Rule \x27" ++ name ++ "\x27 raised an exception and was skipped" }

/-- The rule-execution loop of `ValidationEngine.validate` (engine.py
lines 56-75): returns the accumulated findings and the `rules_checked`
audit list, in evaluation order. -/
def runRules : List Rule → PyDict → Schema → List RuleFinding × List String
  | [], _, _ => ([], [])
  | r :: rs, data, schema =>
    let rest := runRules rs data schema
    if r.appliesTo schema then
      match r.evaluate data schema with
      | some findings => (findings ++ rest.1, r.name :: rest.2)
      | none => (syntheticFinding r.name :: rest.1, r.name :: rest.2)
    else rest

/-- Model of `ValidationEngine.validate` (engine.py lines 51-75): run every
registered rule, then reduce.  Total: it always returns a verdict. -/
def validate (rules : List Rule) (data : PyDict) (schema : Schema) : ValidationResult :=
  let r := runRules rules data schema
  buildResult r.1 r.2

/-- Model of `ValidationEngine.remove_rule` (engine.py lines 48-49): keep every
rule whose name differs. -/
def removeRule (rules : List Rule) (rule_name : String) : List Rule :=
  rules.filter (fun r => r.name != rule_name)

end ValidationEngine

/-- The shared line-item key resolution
(`items_key = "line_items" if "line_items" in data else "items"`),
appearing verbatim in math_rules.py lines 34/153/213, anomaly_rules.py
lines 82/138, and business_rules.py line 244: when `"line_items"` is a
key of the data — whatever its value — the `"items"` key is never
consulted. -/
def itemsKeyOf (data : PyDict) : String :=
  if data.containsKey "line_items" then "line_items" else "items"

namespace LineItemsSumRule

/-- One term of
`sum(item.get("amount", 0) or 0 for item in items if isinstance(item, dict))`
(math_rules.py lines 41-43): non-dict items are filtered out of the sum; a
truthy non-numeric amount raises `TypeError`. -/
def amountTerm? : PyValue → Option ℚ
  | .dict fs => (pyOr (PyDict.getD fs "amount" (.num 0)) (.num 0)).toNum?
  | _ => some 0

/-- The single finding constructed by `LineItemsSumRule.validate`
(math_rules.py lines 46-61), with severity chosen from the diff. -/
def sumFinding (computed_sum subtotal diff : ℚ) : RuleFinding :=
  let severity := if diff > 1 then RuleSeverity.error else RuleSeverity.warning
  { rule_name := "line_items_sum_to_subtotal"
    severity := severity
    message := "Line items sum (" ++ formatFixed2 computed_sum ++ ") does not match subtotal ("
      ++ formatFixed2 subtotal ++ "), diff=" ++ formatFixed2 diff
    field_name := some "subtotal"
    confidence_impact := if severity == RuleSeverity.error then 0.15 else 0.05
    is_fraud_signal := severity == RuleSeverity.error
    fraud_weight := if severity == RuleSeverity.error then 0.2 else 0 }

/-- Model of `LineItemsSumRule.validate` (math_rules.py lines 29-63).  The source
default for `tolerance` is `0.02`. -/
def validate (tolerance : ℚ) (data : PyDict) (_schema : Schema) : Option (List RuleFinding) := do
  let items_key := itemsKeyOf data
  let items := data.get items_key
  let subtotal := data.get "subtotal"
  if items.isNull || subtotal.isNull then
    return []
  let elems ← items.iterElems?
  let terms ← elems.mapM amountTerm?
  let computed_sum := terms.sum
  let st ← subtotal.toNum?
  let diff := ratAbs (computed_sum - st)
  if diff > tolerance then
    return [sumFinding computed_sum st diff]
  else
    return []

end LineItemsSumRule

namespace LineItemMathRule

/-- The loop body of `LineItemMathRule.validate` for one enumerated item
(math_rules.py lines 158-185). -/
def mathItemFindings? (tolerance : ℚ) (items_key : String) (i : ℕ) : PyValue → Option (List RuleFinding)
  | .dict fs => do
    let quantity := PyDict.getD fs "quantity" .null
    let amount := PyDict.getD fs "amount" .null
    let unit_price := pyOr (PyDict.getD fs "unit_price_with_taxes" .null)
      (PyDict.getD fs "unit_price_without_taxes" .null)
    if !quantity.isNull && !unit_price.isNull && !amount.isNull then do
      let q ← quantity.toNum?
      let u ← unit_price.toNum?
      let a ← amount.toNum?
      let expected := q * u
      let diff := ratAbs (expected - a)
      if diff > tolerance then
        let item_name := match PyDict.find? fs "name" with
          | some v => pyStr v
          | none => "item #" ++ toString (i + 1)
        return [{ rule_name := "line_item_internal_math"
                  severity := RuleSeverity.warning
                  message := "Line item \x27" ++ item_name ++ "\x27: quantity (" ++ pyStr quantity
                    ++ ") * unit_price (" ++ formatFixed2 u ++ ") = " ++ formatFixed2 expected
                    ++ ", but amount is " ++ formatFixed2 a
                  field_name := some (items_key ++ "[" ++ toString i ++ "].amount")
                  confidence_impact := 0.05 }]
      else
        return []
    else
      return []
  | _ => some []

/-- Model of `LineItemMathRule.validate` (math_rules.py lines 148-187).  The source
default for `tolerance` is `0.02`. -/
def validate (tolerance : ℚ) (data : PyDict) (_schema : Schema) : Option (List RuleFinding) := do
  let items_key := itemsKeyOf data
  let items := data.get items_key
  if !items.truthy then
    return []
  let elems ← items.iterElems?
  let perItem ← elems.enum.mapM (fun p => mathItemFindings? tolerance items_key p.1 p.2)
  return perItem.flatten

end LineItemMathRule

namespace TaxConsistencyRule

/-- The loop body of `TaxConsistencyRule.validate` for one enumerated item
(math_rules.py lines 218-243). -/
def taxItemFindings? (tolerance : ℚ) (items_key : String) (i : ℕ) : PyValue → Option (List RuleFinding)
  | .dict fs => do
    let taxes := PyDict.getD fs "taxes" .null
    let taxes_pct := PyDict.getD fs "taxes_percentage" .null
    let base_price := pyOr (PyDict.getD fs "unit_price_without_taxes" .null)
      (PyDict.getD fs "amount" .null)
    if !taxes.isNull && !taxes_pct.isNull && !base_price.isNull then do
      let t ← taxes.toNum?
      let p ← taxes_pct.toNum?
      let b ← base_price.toNum?
      let expected_taxes := b * p / 100
      let diff := ratAbs (expected_taxes - t)
      if diff > tolerance then
        let item_name := match PyDict.find? fs "name" with
          | some v => pyStr v
          | none => "item #" ++ toString (i + 1)
        return [{ rule_name := "tax_percentage_consistency"
                  severity := RuleSeverity.warning
                  message := "Line item \x27" ++ item_name ++ "\x27: expected taxes "
                    ++ formatFixed2 expected_taxes ++ " (" ++ pyStr taxes_pct ++ "% of "
                    ++ formatFixed2 b ++ "), but got " ++ formatFixed2 t
                  field_name := some (items_key ++ "[" ++ toString i ++ "].taxes")
                  confidence_impact := 0.05 }]
      else
        return []
    else
      return []
  | _ => some []

/-- Model of `TaxConsistencyRule.validate` (math_rules.py lines 208-245).  The
source default for `tolerance` is `0.02`. -/
def validate (tolerance : ℚ) (data : PyDict) (_schema : Schema) : Option (List RuleFinding) := do
  let items_key := itemsKeyOf data
  let items := data.get items_key
  if !items.truthy then
    return []
  let elems ← items.iterElems?
  let perItem ← elems.enum.mapM (fun p => taxItemFindings? tolerance items_key p.1 p.2)
  return perItem.flatten

end TaxConsistencyRule

/-- A hashable Python dict key as produced by
`(item.get("name"), item.get("amount"))` in `DuplicateLineItemRule`.
Python hashes `True` as `1` and `False` as `0`, so booleans collapse into
numbers; lists and dicts are unhashable (`TypeError`). -/
inductive DupKey where
  | dnull : DupKey
  | dstr (s : String) : DupKey
  | dnum (q : ℚ) : DupKey
deriving DecidableEq

/-- Hash-key view of a value: `none` models the `TypeError` raised when an
unhashable value is used in a dict key. -/
def PyValue.toDupKey? : PyValue → Option DupKey
  | .null => some DupKey.dnull
  | .str s => some (DupKey.dstr s)
  | .num q => some (DupKey.dnum q)
  | .bool b => some (DupKey.dnum (if b then 1 else 0))
  | .list _ => none
  | .dict _ => none

namespace DuplicateLineItemRule

/-- The finding constructed for one duplicate pair (anomaly_rules.py
lines 95-108). -/
def dupFinding (items_key : String) (nameV amountV : PyValue) (firstPos i : ℕ) : RuleFinding :=
  { rule_name := "duplicate_line_items"
    severity := RuleSeverity.warning
    message := "Duplicate line item: \x27" ++ pyStr nameV ++ "\x27 with amount " ++ pyStr amountV
      ++ " appears at positions " ++ toString firstPos ++ " and " ++ toString i
    field_name := some (items_key ++ "[" ++ toString i ++ "]")
    confidence_impact := 0.05
    is_fraud_signal := true
    fraud_weight := 0.2 }

/-- The scanning loop of `DuplicateLineItemRule.validate` (anomaly_rules.py
lines 87-110): `seen` maps each key to the position of its first
occurrence. -/
def dupScan (items_key : String) : List PyValue → ℕ → List ((DupKey × DupKey) × ℕ) → Option (List RuleFinding)
  | [], _, _ => some []
  | item :: rest, i, seen =>
    match item with
    | .dict fs =>
      let nameV := PyDict.getD fs "name" .null
      let amountV := PyDict.getD fs "amount" .null
      if nameV.isNull && amountV.isNull then
        dupScan items_key rest (i + 1) seen
      else do
        let kn ← nameV.toDupKey?
        let ka ← amountV.toDupKey?
        match seen.lookup (kn, ka) with
        | some firstPos => do
          let fsRest ← dupScan items_key rest (i + 1) seen
          return dupFinding items_key nameV amountV firstPos i :: fsRest
        | none => dupScan items_key rest (i + 1) (((kn, ka), i) :: seen)
    | _ => dupScan items_key rest (i + 1) seen

/-- Model of `DuplicateLineItemRule.validate` (anomaly_rules.py lines 77-112). -/
def validate (data : PyDict) (_schema : Schema) : Option (List RuleFinding) :=
  let items_key := itemsKeyOf data
  let items := data.get items_key
  match items with
  | .list xs => if xs.isEmpty then some [] else dupScan items_key xs 0 []
  | _ => some []

end DuplicateLineItemRule

namespace ExtremeQuantityRule

/-- The loop body of `ExtremeQuantityRule.validate` for one enumerated
item (anomaly_rules.py lines 143-178). -/
def quantityItemFindings (max_quantity : ℚ) (items_key : String) (i : ℕ) : PyValue → List RuleFinding
  | .dict fs =>
    let quantity := PyDict.getD fs "quantity" .null
    if quantity.isNull || !quantity.isNumeric then []
    else
      let q := quantity.toNum?.getD 0
      let item_name := match PyDict.find? fs "name" with
        | some v => pyStr v
        | none => "item #" ++ toString (i + 1)
      if q < 0 then
        [{ rule_name := "extreme_quantity"
           severity := RuleSeverity.warning
           message := "Line item \x27" ++ item_name ++ "\x27 has negative quantity: " ++ pyStr quantity
           field_name := some (items_key ++ "[" ++ toString i ++ "].quantity")
           confidence_impact := 0.1
           is_fraud_signal := true
           fraud_weight := 0.15 }]
      else if q > max_quantity then
        [{ rule_name := "extreme_quantity"
           severity := RuleSeverity.warning
           message := "Line item \x27" ++ item_name ++ "\x27 has extreme quantity: " ++ pyStr quantity
             ++ " (threshold: " ++ pyStr (.num max_quantity) ++ ")"
           field_name := some (items_key ++ "[" ++ toString i ++ "].quantity")
           confidence_impact := 0.05
           is_fraud_signal := true
           fraud_weight := 0.15 }]
      else []
  | _ => []

/-- Model of `ExtremeQuantityRule.validate` (anomaly_rules.py lines 133-180).  The
source default for `max_quantity` is `10000`.  This rule never raises. -/
def validate (max_quantity : ℚ) (data : PyDict) (_schema : Schema) : Option (List RuleFinding) :=
  let items_key := itemsKeyOf data
  let items := data.get items_key
  match items with
  | .list xs =>
    if xs.isEmpty then some []
    else some ((xs.enum.map (fun p => quantityItemFindings max_quantity items_key p.1 p.2)).flatten)
  | _ => some []

end ExtremeQuantityRule

namespace EmptyLineItemsRule

/-- Model of `EmptyLineItemsRule.validate` (business_rules.py lines 239-258): flag
a line-item list that is present, a list, and empty.  Never raises. -/
def validate (data : PyDict) (_schema : Schema) : Option (List RuleFinding) :=
  let items_key := itemsKeyOf data
  let items := data.get items_key
  match items with
  | .list [] =>
    some [{ rule_name := "line_items_not_empty"
            severity := RuleSeverity.warning
            message := "\x27" ++ items_key ++ "\x27 is present but empty"
            field_name := some items_key
            confidence_impact := 0.05 }]
  | _ => some []

end EmptyLineItemsRule

namespace NegativeAmountsRule

/-- Per-shape monetary field names (business_rules.py lines 155-158). -/
def amountFields : Schema → List String
  | .invoice => ["total_amount", "subtotal", "tax_amount"]
  | .receipt => ["total", "subtotal", "tax"]

/-- The finding constructed per offending field (business_rules.py
lines 163-173). -/
def negFinding (field_name : String) (value : PyValue) : RuleFinding :=
  { rule_name := "no_negative_amounts"
    severity := RuleSeverity.error
    message := "Field \x27" ++ field_name ++ "\x27 has negative value: " ++ pyStr value
    field_name := some field_name
    confidence_impact := 0.15
    is_fraud_signal := true
    fraud_weight := 0.3 }

/-- The field loop of `NegativeAmountsRule.validate` (business_rules.py
lines 160-173): one Error finding per negative numeric amount field. -/
def negFindings (data : PyDict) (schema : Schema) : List RuleFinding :=
  (amountFields schema).filterMap (fun field_name =>
    let value := data.get field_name
    if value.isNegNum then some (negFinding field_name value) else none)

/-- Model of `NegativeAmountsRule.validate` (business_rules.py lines 150-175).
Never raises. -/
def validate (data : PyDict) (schema : Schema) : Option (List RuleFinding) :=
  some (negFindings data schema)

end NegativeAmountsRule

/-- Python `\s` (ASCII whitespace; unicode whitespace is not exercised). -/
def pyIsSpace (c : Char) : Bool :=
  c == ' ' || c == '\t' || c == '\n' || c == '\r' || c == '\x0b' || c == '\x0c'

/-- Python `str.strip()`. -/
def pyStrip (s : String) : String :=
  String.mk (((s.data.dropWhile pyIsSpace).reverse.dropWhile pyIsSpace).reverse)

/-- Numeric value of an ASCII digit. -/
def digitVal (c : Char) : ℕ :=
  c.toNat - 48

/-- The prefix regex match of `_try_parse_date`
(`re.match(r"(\d{4})-(\d{2})-(\d{2})", value)`, business_rules.py
lines 20-22): digits are converted to ints with no range validation, and
trailing characters are ignored. -/
def isoMatch? (value : String) : Option (ℕ × ℕ × ℕ) :=
  match value.data with
  | y1 :: y2 :: y3 :: y4 :: h1 :: m1 :: m2 :: h2 :: d1 :: d2 :: _ =>
    if y1.isDigit && y2.isDigit && y3.isDigit && y4.isDigit && h1 == '-' &&
        m1.isDigit && m2.isDigit && h2 == '-' && d1.isDigit && d2.isDigit then
      some (1000 * digitVal y1 + 100 * digitVal y2 + 10 * digitVal y3 + digitVal y4,
        10 * digitVal m1 + digitVal m2,
        10 * digitVal d1 + digitVal d2)
    else none
  | _ => none

/-- Proleptic-Gregorian leap year, as `datetime.date` uses. -/
def isLeapYear (y : ℕ) : Bool :=
  y % 4 == 0 && (y % 100 != 0 || y % 400 == 0)

def daysInMonth (y m : ℕ) : ℕ :=
  if m == 2 then (if isLeapYear y then 29 else 28)
  else if m == 4 || m == 6 || m == 9 || m == 11 then 30
  else 31

/-- The `datetime.date(year, month, day)` constructor check performed by
`datetime.strptime` (year within `[1, 9999]`, valid day of month); a
failure raises `ValueError`, which `_try_parse_date` catches before
trying the next format. -/
def validDate (y m d : ℕ) : Bool :=
  1 ≤ y && y ≤ 9999 && 1 ≤ m && m ≤ 12 && 1 ≤ d && d ≤ daysInMonth y m

/-- One directive or literal of a `strptime` format string, as CPython's
`_strptime.TimeRE` compiles it: `%d` and `%m` match one or two digits in
range (no `00`), `%Y` exactly four digits, `%B`/`%b` a month name
case-insensitively, a whitespace run in the format one-or-more whitespace
characters, and any other character itself. -/
inductive STok where
  | d : STok
  | m : STok
  | y : STok
  | bFull : STok
  | bAbbr : STok
  | lit (c : Char) : STok
  | ws : STok

/-- Partial parse state: directive values found so far and remaining
input. -/
structure PState where
  day : Option ℕ := none
  month : Option ℕ := none
  year : Option ℕ := none
  rest : List Char

def twoDigitVal? : List Char → Option (ℕ × List Char)
  | c1 :: c2 :: rest =>
    if c1.isDigit && c2.isDigit then some (10 * digitVal c1 + digitVal c2, rest) else none
  | _ => none

def fourDigitVal? : List Char → Option (ℕ × List Char)
  | c1 :: c2 :: c3 :: c4 :: rest =>
    if c1.isDigit && c2.isDigit && c3.isDigit && c4.isDigit then
      some (1000 * digitVal c1 + 100 * digitVal c2 + 10 * digitVal c3 + digitVal c4, rest)
    else none
  | _ => none

/-- Strip a month name case-insensitively from the input. -/
def stripNameCI : List Char → List Char → Option (List Char)
  | [], cs => some cs
  | _, [] => none
  | p :: ps, c :: cs => if p.toLower == c.toLower then stripNameCI ps cs else none

def monthNamesFull : List (String × ℕ) :=
  [("january", 1), ("february", 2), ("march", 3), ("april", 4), ("may", 5), ("june", 6),
    ("july", 7), ("august", 8), ("september", 9), ("october", 10), ("november", 11),
    ("december", 12)]

def monthNamesAbbr : List (String × ℕ) :=
  [("jan", 1), ("feb", 2), ("mar", 3), ("apr", 4), ("may", 5), ("jun", 6),
    ("jul", 7), ("aug", 8), ("sep", 9), ("oct", 10), ("nov", 11), ("dec", 12)]

def nameCandidates (table : List (String × ℕ)) (cs : List Char) : List (ℕ × List Char) :=
  table.filterMap (fun p => (stripNameCI p.1.data cs).map (fun rest => (p.2, rest)))

/-- All ways one token can consume a prefix of the input (regex
backtracking made explicit as a candidate list).  `%d` admits two-digit
values `01`-`31` and single digits `1`-`9`; `%m` two-digit `01`-`12` and
single digits `1`-`9`; `%Y` exactly four digits, per CPython's
`_strptime` character classes. -/
def matchTok : STok → PState → List PState
  | .d, st =>
    let two := match twoDigitVal? st.rest with
      | some (n, rest) => if 1 ≤ n ∧ n ≤ 31 then [{ st with day := some n, rest := rest }] else []
      | none => []
    let one := match st.rest with
      | c :: rest => if c.isDigit ∧ 1 ≤ digitVal c then [{ st with day := some (digitVal c), rest := rest }] else []
      | [] => []
    two ++ one
  | .m, st =>
    let two := match twoDigitVal? st.rest with
      | some (n, rest) => if 1 ≤ n ∧ n ≤ 12 then [{ st with month := some n, rest := rest }] else []
      | none => []
    let one := match st.rest with
      | c :: rest => if c.isDigit ∧ 1 ≤ digitVal c then [{ st with month := some (digitVal c), rest := rest }] else []
      | [] => []
    two ++ one
  | .y, st =>
    match fourDigitVal? st.rest with
    | some (n, rest) => [{ st with year := some n, rest := rest }]
    | none => []
  | .bFull, st =>
    (nameCandidates monthNamesFull st.rest).map (fun p => { st with month := some p.1, rest := p.2 })
  | .bAbbr, st =>
    (nameCandidates monthNamesAbbr st.rest).map (fun p => { st with month := some p.1, rest := p.2 })
  | .lit c, st =>
    match st.rest with
    | c' :: rest => if c' == c then [{ st with rest := rest }] else []
    | [] => []
  | .ws, st =>
    let run := (st.rest.takeWhile pyIsSpace).length
    (List.range run).map (fun k => { st with rest := st.rest.drop (k + 1) })

def matchToks : List STok → PState → List PState
  | [], st => [st]
  | t :: ts, st => (matchTok t st).flatMap (matchToks ts)

/-- Run one `strptime` format over the whole string: the compiled regex
must consume the entire input (`unconverted data remains` otherwise) and
the resulting date must pass the `datetime.date` constructor.  In each of
the eleven formats below the directive assignment of a full match is
unique, so trying all backtracking candidates is equivalent to CPython's
leftmost match followed by the end-of-input check. -/
def runFormat (toks : List STok) (s : String) : Option (ℕ × ℕ × ℕ) :=
  (matchToks toks { rest := s.data }).findSome? (fun st =>
    match st.rest, st.year, st.month, st.day with
    | [], some y, some m, some d => if validDate y m d then some (y, m, d) else none
    | _, _, _, _ => none)

/-- The eleven `strptime` formats tried by `_try_parse_date`
(business_rules.py lines 25-37), in source order. -/
def strptimeFormats : List (List STok) :=
  [ [.m, .lit '/', .d, .lit '/', .y],
    [.d, .lit '/', .m, .lit '/', .y],
    [.m, .lit '-', .d, .lit '-', .y],
    [.d, .lit '-', .m, .lit '-', .y],
    [.bFull, .ws, .d, .lit ',', .ws, .y],
    [.bFull, .ws, .d, .ws, .y],
    [.d, .ws, .bFull, .ws, .y],
    [.bAbbr, .ws, .d, .lit ',', .ws, .y],
    [.bAbbr, .ws, .d, .ws, .y],
    [.d, .ws, .bAbbr, .ws, .y],
    [.d, .lit '.', .m, .lit '.', .y] ]

/-- Model of `_try_parse_date` (business_rules.py lines 11-44): ISO prefix match
first (no range validation), then the `strptime` formats in order on the
stripped string.  (`.replace(",", ",")` in the source is the identity.) -/
def tryParseDate (value : String) : Option (ℕ × ℕ × ℕ) :=
  match isoMatch? value with
  | some t => some t
  | none => strptimeFormats.findSome? (fun toks => runFormat toks (pyStrip value))

/-- Python `\w` (ASCII view; unicode word characters are not exercised). -/
def isWordChar (c : Char) : Bool :=
  c.isAlpha || c.isDigit || c == '_'

/-- One element of a `_DATE_PATTERNS` regex (format_rules.py
lines 12-19): `\d{n}`, `\d{1,2}`, `\w+`, `\s+`, a literal character, or
`,?`. -/
inductive RTok where
  | dexact (n : ℕ) : RTok
  | d12 : RTok
  | word : RTok
  | wsp : RTok
  | lit (c : Char) : RTok
  | optComma : RTok

/-- All ways one regex element can consume a prefix of the input. -/
def rtokMatch : RTok → List Char → List (List Char)
  | .dexact n, cs =>
    let pre := cs.take n
    if pre.length == n && pre.all Char.isDigit then [cs.drop n] else []
  | .d12, cs =>
    let two := match cs with
      | c1 :: c2 :: rest => if c1.isDigit && c2.isDigit then [rest] else []
      | _ => []
    let one := match cs with
      | c :: rest => if c.isDigit then [rest] else []
      | _ => []
    two ++ one
  | .word, cs =>
    let run := (cs.takeWhile isWordChar).length
    (List.range run).map (fun k => cs.drop (k + 1))
  | .wsp, cs =>
    let run := (cs.takeWhile pyIsSpace).length
    (List.range run).map (fun k => cs.drop (k + 1))
  | .lit c, cs =>
    match cs with
    | c' :: rest => if c' == c then [rest] else []
    | [] => []
  | .optComma, cs =>
    match cs with
    | ',' :: rest => [rest, cs]
    | _ => [cs]

/-- A regex element list matches some prefix of the input. -/
def rtoksMatch : List RTok → List Char → Bool
  | [], _ => true
  | t :: ts, cs => (rtokMatch t cs).any (rtoksMatch ts)

/-- Model of `_DATE_PATTERNS` (format_rules.py lines 12-19), in source order. -/
def datePatterns : List (List RTok) :=
  [ [.dexact 4, .lit '-', .dexact 2, .lit '-', .dexact 2],
    [.dexact 2, .lit '/', .dexact 2, .lit '/', .dexact 4],
    [.dexact 2, .lit '-', .dexact 2, .lit '-', .dexact 4],
    [.d12, .wsp, .word, .wsp, .dexact 4],
    [.word, .wsp, .d12, .optComma, .wsp, .dexact 4],
    [.dexact 2, .lit '.', .dexact 2, .lit '.', .dexact 4] ]

/-- Model of `_DATE_REGEX.search(value)` (format_rules.py line 21): some pattern
matches starting at some position. -/
def dateRegexSearch (s : String) : Bool :=
  (List.range (s.data.length + 1)).any (fun k =>
    datePatterns.any (fun pat => rtoksMatch pat (s.data.drop k)))

namespace DateFormatRule

/-- Date fields checked per shape (format_rules.py lines 89-91). -/
def dateFields : Schema → List String
  | .invoice => ["date", "due_date"]
  | .receipt => ["date"]

/-- Model of `DateFormatRule.validate` (format_rules.py lines 85-110): a string
date field that matches no common pattern yields a Warning; null and
non-string values are skipped.  Never raises. -/
def validate (data : PyDict) (schema : Schema) : Option (List RuleFinding) :=
  some ((dateFields schema).filterMap (fun field_name =>
    match data.get field_name with
    | .str v =>
      if !dateRegexSearch v then
        some { rule_name := "date_format_valid"
               severity := RuleSeverity.warning
               message := "Field \x27" ++ field_name ++ "\x27 value \x27" ++ v
                 ++ "\x27 does not match common date formats"
               field_name := some field_name
               confidence_impact := 0.05 }
      else none
    | _ => none))

end DateFormatRule

namespace DueDateAfterIssueDateRule

/-- Python tuple `<` on the `(year, month, day)` triples returned by
`_try_parse_date` (lexicographic). -/
def dateLt (a b : ℕ × ℕ × ℕ) : Bool :=
  decide (a.1 < b.1 ∨ (a.1 = b.1 ∧ (a.2.1 < b.2.1 ∨ (a.2.1 = b.2.1 ∧ a.2.2 < b.2.2))))

/-- The finding constructed when the due date precedes the issue date
(business_rules.py lines 120-130). -/
def dueFinding (dueV dateV : PyValue) : RuleFinding :=
  { rule_name := "due_date_after_issue_date"
    severity := RuleSeverity.warning
    message := "Due date (" ++ pyStr dueV ++ ") is before issue date (" ++ pyStr dateV ++ ")"
    field_name := some "due_date"
    confidence_impact := 0.1
    is_fraud_signal := true
    fraud_weight := 0.15 }

/-- Model of `DueDateAfterIssueDateRule.validate` (business_rules.py
lines 103-132).  Never raises. -/
def validate (data : PyDict) (_schema : Schema) : Option (List RuleFinding) :=
  let dateV := data.get "date"
  let dueV := data.get "due_date"
  if dateV.isNull || dueV.isNull then some []
  else
    match tryParseDate (pyStr dateV), tryParseDate (pyStr dueV) with
    | some issue_date, some due_date =>
      if dateLt due_date issue_date then some [dueFinding dueV dateV] else some []
    | _, _ => some []

end DueDateAfterIssueDateRule

/-- Spec-side definition, following §4.4 of the specification verbatim:
`W = min(1.0, Σ fraud_weight over findings where is_fraud_signal is
true)`, then bucket by `0.01 / 0.2 / 0.5 / 0.8`.  A finding whose
`is_fraud_signal` is false contributes nothing, whatever its weight. -/
def fraudRiskSpec (findings : List RuleFinding) : String :=
  let W : ℚ := ratMin 1 (((findings.filter (fun f => f.is_fraud_signal)).map (fun f => f.fraud_weight)).sum)
  if W < 0.01 then "clean"
  else if W < 0.2 then "low"
  else if W < 0.5 then "medium"
  else if W < 0.8 then "high"
  else "critical"

/-- Spec-side definition, following §4.4 of the specification verbatim:
`confidence = 1.0 − Σ confidence_impact` over all findings, clamped to
`[0, 1]` once after the full sum. -/
def confidenceSpec (findings : List RuleFinding) : ℚ :=
  ratMax 0 (ratMin 1 (1 - (findings.map (fun f => f.confidence_impact)).sum))

/-- The always-raising test rule (`_CrashingRule` in
tests/test_validators.py lines 95-105). -/
def crashingRule : Rule :=
  { name := "crashing_rule", evaluate := fun _ _ => none }

/-- The warning emitted by `_DummyRule` (tests/test_validators.py
lines 86-92). -/
def dummyFinding : RuleFinding :=
  { rule_name := "dummy_rule", severity := RuleSeverity.warning, message := "dummy warning" }

/-- The always-warning test rule (`_DummyRule` in tests/test_validators.py
lines 74-92). -/
def dummyRule : Rule :=
  { name := "dummy_rule", evaluate := fun _ _ => some [dummyFinding] }

/-- A second benign rule, used to populate the tail of a rule list. -/
def okFinding : RuleFinding :=
  { rule_name := "ok_rule", severity := RuleSeverity.info, message := "ok" }

def okRule : Rule :=
  { name := "ok_rule", evaluate := fun _ _ => some [okFinding] }

/-- Model of `NegativeAmountsRule()` registered as the engine sees it
(`supported_schemas = {InvoiceData, ReceiptData}` covers both shapes). -/
def negativeAmountsRule : Rule :=
  { name := "no_negative_amounts", evaluate := NegativeAmountsRule.validate }

/-- Spec §8 scenario input `{subtotal: 999.99, line_items: [{amount:100},
{amount:200}]}`. -/
def subtotalMismatchData : PyDict :=
  [("subtotal", PyValue.num (999.99 : ℚ)),
    ("line_items", PyValue.list [PyValue.dict [("amount", PyValue.num 100)],
      PyValue.dict [("amount", PyValue.num 200)]])]

/-- Spec §8 scenario input `{total_amount: -500.00}`. -/
def negativeTotalData : PyDict :=
  [("total_amount", PyValue.num (-500 : ℚ))]

/-- An invoice whose due date precedes its issue date
(tests/test_validators.py lines 368-372). -/
def dueBeforeIssueData : PyDict :=
  [("date", PyValue.str "2024-06-15"), ("due_date", PyValue.str "2024-01-01")]

/-- The function `ratMin` agrees with the order-theoretic `min`. -/
theorem ratMin_eq_min (a b : ℚ) : ratMin a b = min a b := by
  unfold ratMin
  rw [min_def]

/-- The function `ratMax` agrees with the order-theoretic `max`. -/
theorem ratMax_eq_max (a b : ℚ) : ratMax a b = max a b := by
  unfold ratMax
  rw [max_def]

/-- The function `ratAbs` agrees with the order-theoretic absolute value. -/
theorem ratAbs_eq_abs (q : ℚ) : ratAbs q = |q| := by
  unfold ratAbs
  split
  · rw [abs_of_neg]; assumption
  · rw [abs_of_nonneg]; linarith

/-- Sequential subtraction equals subtracting the sum (engine.py
lines 85-87 versus spec §4.4). -/
theorem confidence_foldl (findings : List RuleFinding) (c : ℚ) :
    findings.foldl (fun acc f => acc - f.confidence_impact) c
      = c - (findings.map (fun f => f.confidence_impact)).sum := by
  induction findings generalizing c with
  | nil => simp
  | cons f fs ih => simp [List.foldl_cons, ih]; ring

/-- C2: for every finding sequence, `fraud_risk` equals the spec formula
`W = min(1, Σ fraud_weight over fraud-signal findings)` bucketed at
`0.01 / 0.2 / 0.5 / 0.8`, non-signal findings contributing nothing; and
with no fraud-signal finding the bucket is `clean`. -/
theorem fraud_risk_matches_spec (findings : List RuleFinding) (rules_checked : List String) :
    (ValidationEngine.buildResult findings rules_checked).fraud_risk = fraudRiskSpec findings ∧
    (findings.filter (fun f => f.is_fraud_signal) = [] →
      (ValidationEngine.buildResult findings rules_checked).fraud_risk = "clean") := by
  have hmain : (ValidationEngine.buildResult findings rules_checked).fraud_risk
      = fraudRiskSpec findings := by
    show ValidationEngine.calculateFraudRisk (findings.filter (fun f => f.is_fraud_signal))
        = fraudRiskSpec findings
    unfold ValidationEngine.calculateFraudRisk fraudRiskSpec
    cases h : findings.filter (fun f => f.is_fraud_signal) with
    | nil => norm_num [ratMin]
    | cons a l => simp
  refine ⟨hmain, fun h => ?_⟩
  rw [hmain]
  unfold fraudRiskSpec
  rw [h]
  norm_num [ratMin]

/-- C2 witness: a single non-fraud finding gives the `clean` bucket. -/
theorem fraud_risk_matches_spec_witness :
    (ValidationEngine.buildResult [okFinding] []).fraud_risk = "clean" :=
  (fraud_risk_matches_spec [okFinding] []).2 (by rfl)

/-- C3: for every finding sequence, `confidence` is `1 − Σ impacts`
clamped once to `[0,1]`; it always lies in `[0,1]` and is exactly `1`
when every impact is zero. -/
theorem confidence_matches_spec (findings : List RuleFinding) (rules_checked : List String) :
    (ValidationEngine.buildResult findings rules_checked).confidence = confidenceSpec findings ∧
    0 ≤ (ValidationEngine.buildResult findings rules_checked).confidence ∧
    (ValidationEngine.buildResult findings rules_checked).confidence ≤ 1 ∧
    ((∀ f ∈ findings, f.confidence_impact = 0) →
      (ValidationEngine.buildResult findings rules_checked).confidence = 1) := by
  have hmain : (ValidationEngine.buildResult findings rules_checked).confidence
      = confidenceSpec findings := by
    show ratMax 0 (ratMin 1 (findings.foldl (fun acc f => acc - f.confidence_impact) 1))
        = confidenceSpec findings
    rw [confidence_foldl]
    rfl
  refine ⟨hmain, ?_, ?_, ?_⟩
  · rw [hmain]
    unfold confidenceSpec
    rw [ratMax_eq_max]
    exact le_max_left _ _
  · rw [hmain]
    unfold confidenceSpec
    rw [ratMax_eq_max, ratMin_eq_min]
    exact max_le (by norm_num) (min_le_left _ _)
  · intro h
    rw [hmain]
    unfold confidenceSpec
    have hz : (findings.map (fun f => f.confidence_impact)).sum = 0 := by
      apply List.sum_eq_zero
      intro x hx
      rcases List.mem_map.mp hx with ⟨f, hf, rfl⟩
      exact h f hf
    rw [hz]
    norm_num [ratMax, ratMin]

/-- C3 witness: one zero-impact finding leaves confidence at exactly 1. -/
theorem confidence_matches_spec_witness :
    (ValidationEngine.buildResult [okFinding] []).confidence = 1 :=
  (confidence_matches_spec [okFinding] []).2.2.2
    (by intro f hf; rw [List.mem_singleton] at hf; subst hf; rfl)

/-- C4: `errors` / `warnings` are exactly the messages of Error- /
Warning-severity findings in order, `is_valid` holds iff `errors` is
empty, and an Info finding changes neither list. -/
theorem verdict_messages_partition (findings : List RuleFinding) (rules_checked : List String) :
    (ValidationEngine.buildResult findings rules_checked).errors
      = (findings.filter (fun f => f.severity == RuleSeverity.error)).map (fun f => f.message) ∧
    (ValidationEngine.buildResult findings rules_checked).warnings
      = (findings.filter (fun f => f.severity == RuleSeverity.warning)).map (fun f => f.message) ∧
    ((ValidationEngine.buildResult findings rules_checked).is_valid = true ↔
      (ValidationEngine.buildResult findings rules_checked).errors = []) ∧
    (∀ f : RuleFinding, f.severity = RuleSeverity.info →
      (ValidationEngine.buildResult (f :: findings) rules_checked).errors
        = (ValidationEngine.buildResult findings rules_checked).errors ∧
      (ValidationEngine.buildResult (f :: findings) rules_checked).warnings
        = (ValidationEngine.buildResult findings rules_checked).warnings) := by
  refine ⟨rfl, rfl, ?_, ?_⟩
  · have hgen : ∀ l : List String, (l.length == 0) = true ↔ l = [] := by
      intro l
      cases l <;> simp
    exact hgen _
  · intro f hf
    have h1 : (f.severity == RuleSeverity.error) = false := by rw [hf]; rfl
    have h2 : (f.severity == RuleSeverity.warning) = false := by rw [hf]; rfl
    constructor <;>
      simp [ValidationEngine.buildResult, List.filter_cons, h1, h2]

/-- C4 witness: prepending an Info finding leaves `errors` and
`warnings` unchanged. -/
theorem verdict_messages_partition_witness :
    (ValidationEngine.buildResult [okFinding] []).errors
      = (ValidationEngine.buildResult [] []).errors ∧
    (ValidationEngine.buildResult [okFinding] []).warnings
      = (ValidationEngine.buildResult [] []).warnings :=
  (verdict_messages_partition [] []).2.2.2 okFinding rfl

/-- The fraud-risk bucket depends only on the multiset of fraud-signal
findings. -/
theorem calculateFraudRisk_perm {l1 l2 : List RuleFinding} (h : l1.Perm l2) :
    ValidationEngine.calculateFraudRisk l1 = ValidationEngine.calculateFraudRisk l2 := by
  unfold ValidationEngine.calculateFraudRisk
  have hlen := h.length_eq
  have hsum := (h.map (fun f => f.fraud_weight)).sum_eq
  rw [hsum]
  cases l1 with
  | nil =>
    cases l2 with
    | nil => rfl
    | cons b m => simp at hlen
  | cons a l =>
    cases l2 with
    | nil => simp at hlen
    | cons b m => simp

/-- C7: permuting the finding sequence preserves `is_valid`,
`confidence` and the `fraud_risk` bucket, and permutes the `errors` and
`warnings` message lists. -/
theorem verdict_reduction_perm (l1 l2 : List RuleFinding) (rules_checked : List String)
    (h : l1.Perm l2) :
    (ValidationEngine.buildResult l1 rules_checked).is_valid
      = (ValidationEngine.buildResult l2 rules_checked).is_valid ∧
    (ValidationEngine.buildResult l1 rules_checked).confidence
      = (ValidationEngine.buildResult l2 rules_checked).confidence ∧
    (ValidationEngine.buildResult l1 rules_checked).fraud_risk
      = (ValidationEngine.buildResult l2 rules_checked).fraud_risk ∧
    ((ValidationEngine.buildResult l1 rules_checked).errors).Perm
      ((ValidationEngine.buildResult l2 rules_checked).errors) ∧
    ((ValidationEngine.buildResult l1 rules_checked).warnings).Perm
      ((ValidationEngine.buildResult l2 rules_checked).warnings) := by
  have herr : ((l1.filter (fun f => f.severity == RuleSeverity.error)).map (fun f => f.message)).Perm
      ((l2.filter (fun f => f.severity == RuleSeverity.error)).map (fun f => f.message)) :=
    (h.filter _).map _
  have hwarn : ((l1.filter (fun f => f.severity == RuleSeverity.warning)).map (fun f => f.message)).Perm
      ((l2.filter (fun f => f.severity == RuleSeverity.warning)).map (fun f => f.message)) :=
    (h.filter _).map _
  refine ⟨?_, ?_, ?_, herr, hwarn⟩
  · have e1 : (ValidationEngine.buildResult l1 rules_checked).is_valid
        = (((l1.filter (fun f => f.severity == RuleSeverity.error)).map (fun f => f.message)).length == 0) := rfl
    have e2 : (ValidationEngine.buildResult l2 rules_checked).is_valid
        = (((l2.filter (fun f => f.severity == RuleSeverity.error)).map (fun f => f.message)).length == 0) := rfl
    rw [e1, e2, herr.length_eq]
  · have e1 : (ValidationEngine.buildResult l1 rules_checked).confidence
        = ratMax 0 (ratMin 1 (l1.foldl (fun acc f => acc - f.confidence_impact) 1)) := rfl
    have e2 : (ValidationEngine.buildResult l2 rules_checked).confidence
        = ratMax 0 (ratMin 1 (l2.foldl (fun acc f => acc - f.confidence_impact) 1)) := rfl
    rw [e1, e2, confidence_foldl, confidence_foldl,
      (h.map (fun f => f.confidence_impact)).sum_eq]
  · exact calculateFraudRisk_perm (h.filter _)

/-- C7 witness: swapping two findings leaves the confidence unchanged. -/
theorem verdict_reduction_perm_witness :
    (ValidationEngine.buildResult [dummyFinding, okFinding] []).confidence
      = (ValidationEngine.buildResult [okFinding, dummyFinding] []).confidence :=
  (verdict_reduction_perm [dummyFinding, okFinding] [okFinding, dummyFinding] []
    (List.Perm.swap okFinding dummyFinding [])).2.1

/-- The engine's rule loop distributes over list append. -/
theorem runRules_append (xs ys : List Rule) (d : PyDict) (s : Schema) :
    ValidationEngine.runRules (xs ++ ys) d s
      = ((ValidationEngine.runRules xs d s).1 ++ (ValidationEngine.runRules ys d s).1,
        (ValidationEngine.runRules xs d s).2 ++ (ValidationEngine.runRules ys d s).2) := by
  induction xs with
  | nil => simp [ValidationEngine.runRules]
  | cons r rs ih =>
    by_cases hA : r.appliesTo s
    · cases hE : r.evaluate d s with
      | none => simp [ValidationEngine.runRules, hA, hE, ih, List.append_assoc]
      | some fs => simp [ValidationEngine.runRules, hA, hE, ih, List.append_assoc]
    · simp [ValidationEngine.runRules, hA, ih]

/-- C1: when an applicable rule raises, the engine substitutes exactly one
synthetic Warning finding (the exact skip message, zero confidence impact,
zero fraud weight, not a fraud signal), still runs every preceding and
following rule, and `validate` still returns the reduced verdict. -/
theorem engine_isolates_raising_rule (pre post : List Rule) (r : Rule) (d : PyDict) (s : Schema)
    (hA : r.appliesTo s = true) (hE : r.evaluate d s = none) :
    ValidationEngine.runRules (pre ++ r :: post) d s
      = ((ValidationEngine.runRules pre d s).1
            ++ ValidationEngine.syntheticFinding r.name :: (ValidationEngine.runRules post d s).1,
        (ValidationEngine.runRules pre d s).2
            ++ r.name :: (ValidationEngine.runRules post d s).2) ∧
    (ValidationEngine.syntheticFinding r.name).severity = RuleSeverity.warning ∧
    (ValidationEngine.syntheticFinding r.name).message
      = "Rule \x27" ++ r.name ++ "\x27 raised an exception and was skipped" ∧
    (ValidationEngine.syntheticFinding r.name).confidence_impact = 0 ∧
    (ValidationEngine.syntheticFinding r.name).is_fraud_signal = false ∧
    (ValidationEngine.syntheticFinding r.name).fraud_weight = 0 ∧
    ValidationEngine.validate (pre ++ r :: post) d s
      = ValidationEngine.buildResult (ValidationEngine.runRules (pre ++ r :: post) d s).1
          (ValidationEngine.runRules (pre ++ r :: post) d s).2 := by
  refine ⟨?_, rfl, rfl, rfl, rfl, rfl, rfl⟩
  rw [runRules_append]
  simp [ValidationEngine.runRules, hA, hE]

/-- C1 witness: a crashing rule between two healthy rules yields exactly
the synthetic finding in place, with both neighbours still evaluated. -/
theorem engine_isolates_raising_rule_witness :
    crashingRule.appliesTo Schema.invoice = true ∧
    crashingRule.evaluate [] Schema.invoice = none ∧
    ValidationEngine.runRules ([dummyRule] ++ crashingRule :: [okRule]) [] Schema.invoice
      = ((ValidationEngine.runRules [dummyRule] [] Schema.invoice).1
            ++ ValidationEngine.syntheticFinding crashingRule.name
              :: (ValidationEngine.runRules [okRule] [] Schema.invoice).1,
        (ValidationEngine.runRules [dummyRule] [] Schema.invoice).2
            ++ crashingRule.name :: (ValidationEngine.runRules [okRule] [] Schema.invoice).2) :=
  ⟨rfl, rfl,
    (engine_isolates_raising_rule [dummyRule] [okRule] crashingRule [] Schema.invoice rfl rfl).1⟩

/-- Every audited name in `rules_checked` belongs to some registered
rule. -/
theorem runRules_checked_mem (rules : List Rule) (d : PyDict) (s : Schema) :
    ∀ n ∈ (ValidationEngine.runRules rules d s).2, ∃ r ∈ rules, r.name = n := by
  induction rules with
  | nil => intro n hn; simp [ValidationEngine.runRules] at hn
  | cons r rs ih =>
    intro n hn
    by_cases hA : r.appliesTo s
    · cases hE : r.evaluate d s with
      | none =>
        simp only [ValidationEngine.runRules, hA, hE, if_true] at hn
        rcases List.mem_cons.mp hn with rfl | hn2
        · exact ⟨r, List.mem_cons_self r rs, rfl⟩
        · rcases ih n hn2 with ⟨r', hr', he⟩
          exact ⟨r', List.mem_cons_of_mem r hr', he⟩
      | some fs =>
        simp only [ValidationEngine.runRules, hA, hE, if_true] at hn
        rcases List.mem_cons.mp hn with rfl | hn2
        · exact ⟨r, List.mem_cons_self r rs, rfl⟩
        · rcases ih n hn2 with ⟨r', hr', he⟩
          exact ⟨r', List.mem_cons_of_mem r hr', he⟩
    · simp only [ValidationEngine.runRules, hA] at hn
      rcases ih n (by simpa using hn) with ⟨r', hr', he⟩
      exact ⟨r', List.mem_cons_of_mem r hr', he⟩

/-- Every accumulated finding carries the name of some registered rule,
provided each rule tags its own findings with its name (as every rule in
the repository does; the synthetic finding always does). -/
theorem runRules_findings_name (rules : List Rule) (d : PyDict) (s : Schema)
    (hwb : ∀ r ∈ rules, ∀ fs, r.evaluate d s = some fs → ∀ f ∈ fs, f.rule_name = r.name) :
    ∀ f ∈ (ValidationEngine.runRules rules d s).1, ∃ r ∈ rules, f.rule_name = r.name := by
  induction rules with
  | nil => intro f hf; simp [ValidationEngine.runRules] at hf
  | cons r rs ih =>
    have hwb2 : ∀ r' ∈ rs, ∀ fs, r'.evaluate d s = some fs → ∀ f ∈ fs, f.rule_name = r'.name :=
      fun r' hr' => hwb r' (List.mem_cons_of_mem r hr')
    intro f hf
    by_cases hA : r.appliesTo s
    · cases hE : r.evaluate d s with
      | none =>
        simp only [ValidationEngine.runRules, hA, hE, if_true] at hf
        rcases List.mem_cons.mp hf with rfl | hf2
        · exact ⟨r, List.mem_cons_self r rs, rfl⟩
        · rcases ih hwb2 f hf2 with ⟨r', hr', he⟩
          exact ⟨r', List.mem_cons_of_mem r hr', he⟩
      | some fs =>
        simp only [ValidationEngine.runRules, hA, hE, if_true] at hf
        rcases List.mem_append.mp hf with hf1 | hf2
        · exact ⟨r, List.mem_cons_self r rs, hwb r (List.mem_cons_self r rs) fs hE f hf1⟩
        · rcases ih hwb2 f hf2 with ⟨r', hr', he⟩
          exact ⟨r', List.mem_cons_of_mem r hr', he⟩
    · simp only [ValidationEngine.runRules, hA] at hf
      rcases ih hwb2 f (by simpa using hf) with ⟨r', hr', he⟩
      exact ⟨r', List.mem_cons_of_mem r hr', he⟩

/-- C9: `remove_rule` drops every rule with the given name, is idempotent,
and a subsequent validation neither audits that name in `rules_checked`
nor accumulates any finding from a rule of that name. -/
theorem remove_rule_removes_all (rules : List Rule) (n : String) (d : PyDict) (s : Schema)
    (hwb : ∀ r ∈ rules, ∀ fs, r.evaluate d s = some fs → ∀ f ∈ fs, f.rule_name = r.name) :
    (∀ r ∈ ValidationEngine.removeRule rules n, r.name ≠ n) ∧
    ValidationEngine.removeRule (ValidationEngine.removeRule rules n) n
      = ValidationEngine.removeRule rules n ∧
    n ∉ (ValidationEngine.validate (ValidationEngine.removeRule rules n) d s).rules_checked ∧
    (∀ f ∈ (ValidationEngine.runRules (ValidationEngine.removeRule rules n) d s).1,
      f.rule_name ≠ n) := by
  have hall : ∀ r ∈ ValidationEngine.removeRule rules n, r.name ≠ n := by
    intro r hr
    have := List.of_mem_filter hr
    simpa using this
  refine ⟨hall, ?_, ?_, ?_⟩
  · unfold ValidationEngine.removeRule
    apply List.filter_eq_self.mpr
    intro r hr
    simpa using hall r hr
  · intro hmem
    have hrc : (ValidationEngine.validate (ValidationEngine.removeRule rules n) d s).rules_checked
        = (ValidationEngine.runRules (ValidationEngine.removeRule rules n) d s).2 := rfl
    rw [hrc] at hmem
    rcases runRules_checked_mem _ d s n hmem with ⟨r, hr, he⟩
    exact hall r hr he
  · intro f hf
    have hwb2 : ∀ r ∈ ValidationEngine.removeRule rules n, ∀ fs,
        r.evaluate d s = some fs → ∀ f ∈ fs, f.rule_name = r.name :=
      fun r hr => hwb r (List.mem_of_mem_filter hr)
    rcases runRules_findings_name _ d s hwb2 f hf with ⟨r, hr, he⟩
    rw [he]
    exact hall r hr

/-- C9 witness: removing the crashing rule from a two-rule engine leaves
no trace of it in the audit list. -/
theorem remove_rule_removes_all_witness :
    "crashing_rule" ∉ (ValidationEngine.validate
      (ValidationEngine.removeRule [dummyRule, crashingRule] "crashing_rule")
      [] Schema.invoice).rules_checked :=
  (remove_rule_removes_all [dummyRule, crashingRule] "crashing_rule" [] Schema.invoice
    (by
      intro r hr fs hfs f hf
      rcases List.mem_cons.mp hr with rfl | hr2
      · have hfs2 : ([dummyFinding] : List RuleFinding) = fs := by
          simpa [dummyRule] using hfs
        rw [← hfs2, List.mem_singleton] at hf
        subst hf
        rfl
      · rcases List.mem_singleton.mp hr2 with rfl
        simp [crashingRule] at hfs)).2.2.1


attribute [local semireducible] Rat.add Rat.sub Rat.mul Rat.inv Rat.ofScientific

/-- One finding per negative field: the finding count equals the count of
offending fields. -/
theorem negFindings_length (data : PyDict) (s : Schema) :
    (NegativeAmountsRule.negFindings data s).length
      = ((NegativeAmountsRule.amountFields s).filter (fun k => (data.get k).isNegNum)).length := by
  unfold NegativeAmountsRule.negFindings
  generalize NegativeAmountsRule.amountFields s = keys
  induction keys with
  | nil => rfl
  | cons k ks ih =>
    by_cases h : (data.get k).isNegNum <;>
      simp [List.filterMap_cons, List.filter_cons, h, ih]

/-- C6: the no-negative-amounts rule never raises and emits exactly one
Error finding (impact 0.15, fraud weight 0.3) per monetary field with a
negative numeric value, none for other fields; on `{total_amount: -500}`
with the invoice shape it emits exactly one Error, and a validation whose
only rule is this one then reports `fraud_risk = "medium"`. -/
theorem negative_amounts_per_field (data : PyDict) (s : Schema) :
    NegativeAmountsRule.validate data s = some (NegativeAmountsRule.negFindings data s) ∧
    (∀ f ∈ NegativeAmountsRule.negFindings data s,
      f.severity = RuleSeverity.error ∧ f.confidence_impact = 0.15 ∧
      f.is_fraud_signal = true ∧ f.fraud_weight = 0.3) ∧
    (NegativeAmountsRule.negFindings data s).length
      = ((NegativeAmountsRule.amountFields s).filter (fun k => (data.get k).isNegNum)).length ∧
    (∀ k ∈ NegativeAmountsRule.amountFields s, (data.get k).isNegNum = false →
      ∀ f ∈ NegativeAmountsRule.negFindings data s, f.field_name ≠ some k) ∧
    NegativeAmountsRule.validate negativeTotalData Schema.invoice
      = some [NegativeAmountsRule.negFinding "total_amount" (PyValue.num (-500))] ∧
    (ValidationEngine.validate [negativeAmountsRule] negativeTotalData Schema.invoice).fraud_risk
      = "medium" := by
  refine ⟨rfl, ?_, negFindings_length data s, ?_, rfl, by decide⟩
  · intro f hf
    rcases List.mem_filterMap.mp hf with ⟨k, hk, heq⟩
    by_cases h : (data.get k).isNegNum
    · rw [if_pos h] at heq
      cases heq
      exact ⟨rfl, rfl, rfl, rfl⟩
    · rw [if_neg h] at heq
      cases heq
  · intro k hk hneg f hf hfield
    rcases List.mem_filterMap.mp hf with ⟨k', hk', heq⟩
    by_cases h : (data.get k').isNegNum
    · rw [if_pos h] at heq
      cases heq
      have hkk : k' = k := by
        simpa [NegativeAmountsRule.negFinding] using hfield
      rw [hkk, hneg] at h
      cases h
    · rw [if_neg h] at heq
      cases heq

/-- C6 witness: the finding emitted for the `{total_amount: -500}`
scenario has Error severity, impact 0.15, fraud weight 0.3. -/
theorem negative_amounts_per_field_witness :
    (NegativeAmountsRule.negFinding "total_amount" (PyValue.num (-500))).severity
        = RuleSeverity.error ∧
    (NegativeAmountsRule.negFinding "total_amount" (PyValue.num (-500))).confidence_impact = 0.15 ∧
    (NegativeAmountsRule.negFinding "total_amount" (PyValue.num (-500))).is_fraud_signal = true ∧
    (NegativeAmountsRule.negFinding "total_amount" (PyValue.num (-500))).fraud_weight = 0.3 :=
  (negative_amounts_per_field negativeTotalData Schema.invoice).2.1
    (NegativeAmountsRule.negFinding "total_amount" (PyValue.num (-500))) (by decide)

/-- Field values of the sum-rule finding in the Error tier
(math_rules.py lines 47, 57-59 with `diff > 1.0`). -/
theorem sumFinding_error_tier (a b c : ℚ) (h : (1 : ℚ) < c) :
    (LineItemsSumRule.sumFinding a b c).severity = RuleSeverity.error ∧
    (LineItemsSumRule.sumFinding a b c).confidence_impact = 0.15 ∧
    (LineItemsSumRule.sumFinding a b c).is_fraud_signal = true ∧
    (LineItemsSumRule.sumFinding a b c).fraud_weight = 0.2 := by
  unfold LineItemsSumRule.sumFinding
  simp [if_pos h]

/-- Field values of the sum-rule finding in the Warning tier
(`diff ≤ 1.0`). -/
theorem sumFinding_warning_tier (a b c : ℚ) (h : ¬ (1 : ℚ) < c) :
    (LineItemsSumRule.sumFinding a b c).severity = RuleSeverity.warning ∧
    (LineItemsSumRule.sumFinding a b c).confidence_impact = 0.05 ∧
    (LineItemsSumRule.sumFinding a b c).is_fraud_signal = false ∧
    (LineItemsSumRule.sumFinding a b c).fraud_weight = 0 := by
  unfold LineItemsSumRule.sumFinding
  simp [if_neg h]

/-- C5: with list and subtotal both present (and the default tolerance
0.02), the sum rule emits exactly one Error (impact 0.15, fraud weight
0.2) when the diff exceeds 1, exactly one non-fraud Warning (impact 0.05)
when the diff is in (0.02, 1], nothing within tolerance, and nothing when
either side is absent; the `{subtotal: 999.99, line_items: [{amount:100},
{amount:200}]}` scenario yields exactly one Error with impact 0.15 and
fraud weight 0.2. -/
theorem line_items_sum_tiers (data : PyDict) (s : Schema) :
    ((data.get (itemsKeyOf data)).isNull = true ∨ (data.get "subtotal").isNull = true →
      LineItemsSumRule.validate 0.02 data s = some []) ∧
    (∀ elems terms st,
      (data.get (itemsKeyOf data)).isNull = false →
      (data.get "subtotal").isNull = false →
      (data.get (itemsKeyOf data)).iterElems? = some elems →
      elems.mapM LineItemsSumRule.amountTerm? = some terms →
      (data.get "subtotal").toNum? = some st →
      ((1 : ℚ) < ratAbs (terms.sum - st) →
        LineItemsSumRule.validate 0.02 data s
          = some [LineItemsSumRule.sumFinding terms.sum st (ratAbs (terms.sum - st))] ∧
        (LineItemsSumRule.sumFinding terms.sum st (ratAbs (terms.sum - st))).severity
          = RuleSeverity.error ∧
        (LineItemsSumRule.sumFinding terms.sum st (ratAbs (terms.sum - st))).confidence_impact
          = 0.15 ∧
        (LineItemsSumRule.sumFinding terms.sum st (ratAbs (terms.sum - st))).is_fraud_signal
          = true ∧
        (LineItemsSumRule.sumFinding terms.sum st (ratAbs (terms.sum - st))).fraud_weight
          = 0.2) ∧
      ((0.02 : ℚ) < ratAbs (terms.sum - st) → ratAbs (terms.sum - st) ≤ 1 →
        LineItemsSumRule.validate 0.02 data s
          = some [LineItemsSumRule.sumFinding terms.sum st (ratAbs (terms.sum - st))] ∧
        (LineItemsSumRule.sumFinding terms.sum st (ratAbs (terms.sum - st))).severity
          = RuleSeverity.warning ∧
        (LineItemsSumRule.sumFinding terms.sum st (ratAbs (terms.sum - st))).confidence_impact
          = 0.05 ∧
        (LineItemsSumRule.sumFinding terms.sum st (ratAbs (terms.sum - st))).is_fraud_signal
          = false ∧
        (LineItemsSumRule.sumFinding terms.sum st (ratAbs (terms.sum - st))).fraud_weight
          = 0) ∧
      (ratAbs (terms.sum - st) ≤ 0.02 →
        LineItemsSumRule.validate 0.02 data s = some [])) ∧
    (LineItemsSumRule.validate 0.02 subtotalMismatchData Schema.invoice).map
        (List.map (fun f => (f.severity, f.confidence_impact, f.fraud_weight, f.is_fraud_signal)))
      = some [(RuleSeverity.error, 0.15, 0.2, true)] := by
  refine ⟨?_, ?_, by decide⟩
  · intro h
    rcases h with h | h <;>
      simp [LineItemsSumRule.validate, h]
  · intro elems terms st h1 h2 hIter hMap hNum
    have hMap2 : List.mapM.loop LineItemsSumRule.amountTerm? elems [] = some terms := hMap
    have hmain : LineItemsSumRule.validate 0.02 data s
        = if (0.02 : ℚ) < ratAbs (terms.sum - st)
          then some [LineItemsSumRule.sumFinding terms.sum st (ratAbs (terms.sum - st))]
          else some [] := by
      simp [LineItemsSumRule.validate, h1, h2, hIter, hMap2, hNum]
    refine ⟨?_, ?_, ?_⟩
    · intro hgt
      have h002 : (0.02 : ℚ) < ratAbs (terms.sum - st) := by linarith
      rw [hmain, if_pos h002]
      exact ⟨rfl, sumFinding_error_tier _ _ _ hgt⟩
    · intro h002 hle
      rw [hmain, if_pos h002]
      exact ⟨rfl, sumFinding_warning_tier _ _ _ (not_lt.mpr hle)⟩
    · intro hle
      rw [hmain, if_neg (not_lt.mpr hle)]

/-- C5 witness: the scenario input drives the Error tier. -/
theorem line_items_sum_tiers_witness :
    LineItemsSumRule.validate 0.02 subtotalMismatchData Schema.invoice
      = some [LineItemsSumRule.sumFinding ([(100 : ℚ), 200].sum) 999.99
          (ratAbs ([(100 : ℚ), 200].sum - 999.99))] :=
  (((line_items_sum_tiers subtotalMismatchData Schema.invoice).2.1
      [PyValue.dict [("amount", PyValue.num 100)], PyValue.dict [("amount", PyValue.num 200)]]
      [(100 : ℚ), 200] (999.99 : ℚ) rfl rfl rfl rfl rfl).1 (by decide)).1

/-- C8 counterexample: the string "1/5/2024" is parsed by the due-date
rule's parser `_try_parse_date` (via `%m/%d/%Y`, which accepts single
digits), yet the date-format rule's `_DATE_REGEX` rejects it (its slash
pattern requires two-digit day and month), so the two rules do not accept
the same set of date strings: on `{date: "1/5/2024"}` the date-format
rule emits a Warning while the due-date rule parses the same value. -/
theorem due_date_parser_differs :
    tryParseDate "1/5/2024" = some (2024, 1, 5) ∧
    dateRegexSearch "1/5/2024" = false ∧
    DateFormatRule.validate [("date", PyValue.str "1/5/2024")] Schema.invoice
      = some [{ rule_name := "date_format_valid"
                severity := RuleSeverity.warning
                message := "Field \x27date\x27 value \x271/5/2024\x27 does not match common date formats"
                field_name := some "date"
                confidence_impact := 0.05 }] ∧
    DueDateAfterIssueDateRule.validate
        [("date", PyValue.str "1/5/2024"), ("due_date", PyValue.str "1/4/2024")] Schema.invoice
      = some [DueDateAfterIssueDateRule.dueFinding (PyValue.str "1/4/2024")
          (PyValue.str "1/5/2024")] :=
  ⟨by decide, by decide, by decide, by decide⟩

/-- C8 (amended): the due-date rule parses both fields with its own
parser `_try_parse_date`; when both parse and due < issue it emits
exactly one Warning that is a fraud signal with weight 0.15, and when
either field is absent or either value fails to parse it emits nothing. -/
theorem due_date_rule_behavior (data : PyDict) (s : Schema) :
    ((data.get "date").isNull = true ∨ (data.get "due_date").isNull = true →
      DueDateAfterIssueDateRule.validate data s = some []) ∧
    ((data.get "date").isNull = false → (data.get "due_date").isNull = false →
      ((tryParseDate (pyStr (data.get "date")) = none ∨
          tryParseDate (pyStr (data.get "due_date")) = none) →
        DueDateAfterIssueDateRule.validate data s = some []) ∧
      (∀ issue_date due_date,
        tryParseDate (pyStr (data.get "date")) = some issue_date →
        tryParseDate (pyStr (data.get "due_date")) = some due_date →
        DueDateAfterIssueDateRule.validate data s
          = some (if DueDateAfterIssueDateRule.dateLt due_date issue_date
              then [DueDateAfterIssueDateRule.dueFinding (data.get "due_date") (data.get "date")]
              else []))) ∧
    (∀ v1 v2 : PyValue,
      (DueDateAfterIssueDateRule.dueFinding v1 v2).severity = RuleSeverity.warning ∧
      (DueDateAfterIssueDateRule.dueFinding v1 v2).is_fraud_signal = true ∧
      (DueDateAfterIssueDateRule.dueFinding v1 v2).fraud_weight = 0.15) := by
  refine ⟨?_, ?_, fun v1 v2 => ⟨rfl, rfl, rfl⟩⟩
  · intro h
    rcases h with h | h <;>
      simp [DueDateAfterIssueDateRule.validate, h]
  · intro h1 h2
    constructor
    · intro h
      rcases h with h | h <;>
        simp [DueDateAfterIssueDateRule.validate, h1, h2, h]
    · intro issue_date due_date hi hd
      by_cases hlt : DueDateAfterIssueDateRule.dateLt due_date issue_date <;>
        simp [DueDateAfterIssueDateRule.validate, h1, h2, hi, hd, hlt]

/-- C8 witness: a due date strictly before the issue date yields the one
fraud-signal Warning. -/
theorem due_date_rule_behavior_witness :
    DueDateAfterIssueDateRule.validate dueBeforeIssueData Schema.invoice
      = some [DueDateAfterIssueDateRule.dueFinding (PyValue.str "2024-01-01")
          (PyValue.str "2024-06-15")] := by
  have h := ((due_date_rule_behavior dueBeforeIssueData Schema.invoice).2.1 rfl rfl).2
    (2024, 6, 15) (2024, 1, 1) (by decide) (by decide)
  rw [h]
  decide

/-- C10: whenever `"line_items"` is a key of the data — whatever value it
is bound to — the `"items"` key is never consulted by any of the six
line-item rules (their output is invariant under rebinding `"items"`);
and a null `"line_items"` value makes each of the six emit no finding. -/
theorem items_key_shadowing (d1 d2 : PyDict) (s : Schema) (tol maxq : ℚ)
    (hkey : d1.containsKey "line_items" = true)
    (hagree : ∀ k, k ≠ "items" → d1.find? k = d2.find? k) :
    LineItemsSumRule.validate tol d1 s = LineItemsSumRule.validate tol d2 s ∧
    LineItemMathRule.validate tol d1 s = LineItemMathRule.validate tol d2 s ∧
    TaxConsistencyRule.validate tol d1 s = TaxConsistencyRule.validate tol d2 s ∧
    DuplicateLineItemRule.validate d1 s = DuplicateLineItemRule.validate d2 s ∧
    ExtremeQuantityRule.validate maxq d1 s = ExtremeQuantityRule.validate maxq d2 s ∧
    EmptyLineItemsRule.validate d1 s = EmptyLineItemsRule.validate d2 s ∧
    (∀ d : PyDict, d.find? "line_items" = some PyValue.null →
      LineItemsSumRule.validate tol d s = some [] ∧
      LineItemMathRule.validate tol d s = some [] ∧
      TaxConsistencyRule.validate tol d s = some [] ∧
      DuplicateLineItemRule.validate d s = some [] ∧
      ExtremeQuantityRule.validate maxq d s = some [] ∧
      EmptyLineItemsRule.validate d s = some []) := by
  have hkey2 : d2.containsKey "line_items" = true := by
    unfold PyDict.containsKey at hkey ⊢
    rw [← hagree "line_items" (by decide)]
    exact hkey
  have hk1 : itemsKeyOf d1 = "line_items" := by simp [itemsKeyOf, hkey]
  have hk2 : itemsKeyOf d2 = "line_items" := by simp [itemsKeyOf, hkey2]
  have hli : d1.get "line_items" = d2.get "line_items" := by
    unfold PyDict.get
    rw [hagree "line_items" (by decide)]
  have hsub : d1.get "subtotal" = d2.get "subtotal" := by
    unfold PyDict.get
    rw [hagree "subtotal" (by decide)]
  refine ⟨?_, ?_, ?_, ?_, ?_, ?_, ?_⟩
  · simp only [LineItemsSumRule.validate, hk1, hk2]
    rw [hli, hsub]
  · simp only [LineItemMathRule.validate, hk1, hk2]
    rw [hli]
  · simp only [TaxConsistencyRule.validate, hk1, hk2]
    rw [hli]
  · simp only [DuplicateLineItemRule.validate, hk1, hk2]
    rw [hli]
  · simp only [ExtremeQuantityRule.validate, hk1, hk2]
    rw [hli]
  · simp only [EmptyLineItemsRule.validate, hk1, hk2]
    rw [hli]
  · intro d hd
    have hck : d.containsKey "line_items" = true := by
      simp [PyDict.containsKey, hd]
    have hkd : itemsKeyOf d = "line_items" := by simp [itemsKeyOf, hck]
    have hgd : d.get "line_items" = PyValue.null := by simp [PyDict.get, hd]
    refine ⟨?_, ?_, ?_, ?_, ?_, ?_⟩ <;>
      simp [LineItemsSumRule.validate, LineItemMathRule.validate, TaxConsistencyRule.validate,
        DuplicateLineItemRule.validate, ExtremeQuantityRule.validate, EmptyLineItemsRule.validate,
        hkd, hgd, PyValue.isNull, PyValue.truthy]

/-- C10 witness: with `line_items` bound to null, rebinding `items` from
a non-empty item list to a number does not change the sum rule's output. -/
theorem items_key_shadowing_witness :
    LineItemsSumRule.validate 0.02
        [("line_items", PyValue.null),
          ("items", PyValue.list [PyValue.dict [("amount", PyValue.num 5)]]),
          ("subtotal", PyValue.num 1)] Schema.invoice
      = LineItemsSumRule.validate 0.02
        [("line_items", PyValue.null), ("items", PyValue.num 7),
          ("subtotal", PyValue.num 1)] Schema.invoice :=
  (items_key_shadowing
    [("line_items", PyValue.null),
      ("items", PyValue.list [PyValue.dict [("amount", PyValue.num 5)]]),
      ("subtotal", PyValue.num 1)]
    [("line_items", PyValue.null), ("items", PyValue.num 7), ("subtotal", PyValue.num 1)]
    Schema.invoice 0.02 10000 (by decide)
    (by
      intro k hk
      have h2 : (("items" : String) == k) = false := beq_eq_false_iff_ne.mpr (Ne.symm hk)
      simp [PyDict.find?, h2])).1
